import Mathlib

/-!
Verification of the grapheme-level Unicode sanitization pipeline of
`V1_emoji_defense.py` (function `sanitize_unicode`), via a shallow embedding.

Strings are modelled as lists of Unicode scalar values (`List Nat`).
The four leaf dependencies the source delegates to — NFKC normalization
(`unicodedata.normalize`), extended grapheme segmentation (`regex` pattern
`\X`), the general-category lookup (`unicodedata.category`) and the Emoji
property (`regex` pattern with the Emoji property) — are modelled as the
fields of a `UnicodeLib` parameter, since the source treats them as external
correct primitives.  The caller-supplied tokenizer is a function from a
string to a list of token strings, exactly as in the source.
-/

/-- A Unicode string as a list of scalar values (code points). -/
abbrev Str : Type := List Nat

/-- The external Unicode primitives the source delegates to. -/
structure UnicodeLib where
  nfkc : Str → Str
  graphemes : Str → List Str
  category : Nat → String
  isEmojiChar : Nat → Bool

/-- Default set of disallowed/invisible code points (`DEFAULT_DISALLOWED`
in the source): ZWSP, ZWNJ, ZWJ, WORD JOINER, VS-15, VS-16. -/
def DEFAULT_DISALLOWED : Finset Nat :=
  {0x200B, 0x200C, 0x200D, 0x2060, 0xFE0E, 0xFE0F}

/-- Default dangerous Unicode general categories
(`DEFAULT_DANGEROUS_CATEGORIES` in the source): private use, unassigned,
surrogate, format. -/
def DEFAULT_DANGEROUS_CATEGORIES : Finset String :=
  {"Co", "Cn", "Cs", "Cf"}

/-- Merge of the default disallowed set with the optional caller-supplied
custom set (source lines 107-110: `disallowed = DEFAULT_DISALLOWED.copy()`
followed by `disallowed.update(custom_disallowed)` guarded by the
truthiness test `if custom_disallowed:`, which is false for `None` and for
an empty set). -/
def merged_disallowed (custom_disallowed : Option (Finset Nat)) : Finset Nat :=
  match custom_disallowed with
  | none => DEFAULT_DISALLOWED
  | some s => if s = ∅ then DEFAULT_DISALLOWED else DEFAULT_DISALLOWED ∪ s

/-- Merge of the default dangerous-category set with the optional
caller-supplied custom set (source lines 112-115). -/
def merged_dangerous (custom_dangerous_categories : Option (Finset String)) :
    Finset String :=
  match custom_dangerous_categories with
  | none => DEFAULT_DANGEROUS_CATEGORIES
  | some s =>
    if s = ∅ then DEFAULT_DANGEROUS_CATEGORIES
    else DEFAULT_DANGEROUS_CATEGORIES ∪ s

/-- The per-cluster classification of `sanitize_unicode` (source lines
125-143): the four checks in their `elif` chain, short-circuiting on the
first that fires.  Returns `true` when the cluster is to be replaced. -/
def should_replace (lib : UnicodeLib) (tokenizer : Str → List Str)
    (max_tokens : Int) (allow_emoji strict_mode : Bool)
    (disallowed : Finset Nat) (dangerous_categories : Finset String)
    (cluster : Str) : Bool :=
  if cluster.any (fun ch => decide (ch ∈ disallowed)) then true
  else if !allow_emoji && cluster.any lib.isEmojiChar then true
  else if strict_mode &&
      cluster.any (fun ch => decide (lib.category ch ∈ dangerous_categories)) then
    true
  else if decide (max_tokens < ((tokenizer cluster).length : Int)) then true
  else false

/-- The sanitization entry point `sanitize_unicode` (source lines 54-149):
merge the default and custom sets, NFKC-normalize, split into grapheme
clusters, classify each cluster, and join the surviving clusters and
replacements back together in order. -/
def sanitize_unicode (lib : UnicodeLib) (text : Str)
    (tokenizer : Str → List Str) (max_tokens : Int) (replacement : Str)
    (allow_emoji strict_mode : Bool)
    (custom_disallowed : Option (Finset Nat))
    (custom_dangerous_categories : Option (Finset String)) : Str :=
  let disallowed := merged_disallowed custom_disallowed
  let dangerous_categories := merged_dangerous custom_dangerous_categories
  let normalized_text := lib.nfkc text
  let clusters := lib.graphemes normalized_text
  let sanitized_clusters := clusters.map (fun cluster =>
    if should_replace lib tokenizer max_tokens allow_emoji strict_mode
        disallowed dangerous_categories cluster
    then replacement else cluster)
  sanitized_clusters.flatten

/-- The arguments the tokenizer is invoked with while classifying one
cluster: the `elif` chain of source lines 125-143 reaches the call
`tokenizer(cluster)` in check 4 only when none of checks 1-3 fired. -/
def cluster_tokenizer_args (lib : UnicodeLib) (allow_emoji strict_mode : Bool)
    (disallowed : Finset Nat) (dangerous_categories : Finset String)
    (cluster : Str) : List Str :=
  if cluster.any (fun ch => decide (ch ∈ disallowed)) then []
  else if !allow_emoji && cluster.any lib.isEmojiChar then []
  else if strict_mode &&
      cluster.any (fun ch => decide (lib.category ch ∈ dangerous_categories)) then
    []
  else [cluster]

/-- The full trace of tokenizer invocations performed by one
`sanitize_unicode` call, in order: the loop of source lines 125-146 visits
the clusters in order and invokes the tokenizer per
`cluster_tokenizer_args`. -/
def tokenizer_call_trace (lib : UnicodeLib) (text : Str)
    (allow_emoji strict_mode : Bool)
    (custom_disallowed : Option (Finset Nat))
    (custom_dangerous_categories : Option (Finset String)) : List Str :=
  let disallowed := merged_disallowed custom_disallowed
  let dangerous_categories := merged_dangerous custom_dangerous_categories
  ((lib.graphemes (lib.nfkc text)).map
    (cluster_tokenizer_args lib allow_emoji strict_mode disallowed
      dangerous_categories)).flatten

/-- Spec-side admission predicate: the positive conjunction of the four
checks of spec section 4.3, stated independently of the evaluation order
of the source `elif` chain.  A cluster passes when it has no disallowed
scalar, no emoji scalar (unless `allow_emoji`), no dangerous-category
scalar (unless not `strict_mode`), and its isolated tokenization has at
most `max_tokens` tokens. -/
def passes_all_checks (lib : UnicodeLib) (tokenizer : Str → List Str)
    (max_tokens : Int) (allow_emoji strict_mode : Bool)
    (disallowed : Finset Nat) (dangerous_categories : Finset String)
    (cluster : Str) : Bool :=
  !(cluster.any (fun ch => decide (ch ∈ disallowed))) &&
  (allow_emoji || !(cluster.any lib.isEmojiChar)) &&
  (!strict_mode ||
    !(cluster.any (fun ch => decide (lib.category ch ∈ dangerous_categories)))) &&
  decide (((tokenizer cluster).length : Int) ≤ max_tokens)

/-- The module-level mutable state of `V1_emoji_defense.py`: the two
process-wide default sets. -/
structure SanitizerModule where
  default_disallowed : Finset Nat
  default_dangerous_categories : Finset String
deriving DecidableEq

/-- The module state as initialized at import (source lines 36-51). -/
def initModule : SanitizerModule :=
  ⟨DEFAULT_DISALLOWED, DEFAULT_DANGEROUS_CATEGORIES⟩

/-- State-passing rendering of a `sanitize_unicode` call: the call reads
the process-wide defaults, copies them (`.copy()` on source lines 108 and
113) and updates only the copies, so the module state after the call is
the state before it. -/
def sanitize_unicode_call (st : SanitizerModule) (lib : UnicodeLib)
    (text : Str) (tokenizer : Str → List Str) (max_tokens : Int)
    (replacement : Str) (allow_emoji strict_mode : Bool)
    (custom_disallowed : Option (Finset Nat))
    (custom_dangerous_categories : Option (Finset String)) :
    Str × SanitizerModule :=
  let disallowed :=
    match custom_disallowed with
    | none => st.default_disallowed
    | some s => if s = ∅ then st.default_disallowed else st.default_disallowed ∪ s
  let dangerous_categories :=
    match custom_dangerous_categories with
    | none => st.default_dangerous_categories
    | some s =>
      if s = ∅ then st.default_dangerous_categories
      else st.default_dangerous_categories ∪ s
  let normalized_text := lib.nfkc text
  let clusters := lib.graphemes normalized_text
  let sanitized_clusters := clusters.map (fun cluster =>
    if should_replace lib tokenizer max_tokens allow_emoji strict_mode
        disallowed dangerous_categories cluster
    then replacement else cluster)
  (sanitized_clusters.flatten, st)

/-- A concrete instantiation of the Unicode primitives used for witnesses:
every scalar is its own grapheme cluster, NFKC is the identity, and the
category and Emoji tables cover the handful of code points the witnesses
use (U+200B is Cf, the private-use area is Co, U+1F44D THUMBS UP SIGN is
So and has the Emoji property).  It models the real library's behaviour on
strings without combining sequences or compatibility characters. -/
def modelLib : UnicodeLib where
  nfkc := id
  graphemes := fun s => s.map (fun c => [c])
  category := fun c =>
    if 0xE000 ≤ c ∧ c ≤ 0xF8FF then "Co"
    else if c = 0x200B ∨ c = 0x200C ∨ c = 0x200D ∨ c = 0x2060 then "Cf"
    else if c = 0x1F44D ∨ c = 0x1F30D then "So"
    else "Ll"
  isEmojiChar := fun c => decide (c = 0x1F44D ∨ c = 0x1F30D)

/-- A tokenizer yielding one token per scalar value, used by witnesses. -/
def charTokenizer : Str → List Str := fun s => s.map (fun c => [c])

example : sanitize_unicode modelLib [0x61, 0x200B, 0x62] charTokenizer 3 []
    false true none none = [0x61, 0x62] := by decide

example : sanitize_unicode modelLib [0x1F44D] charTokenizer 3 []
    false true none none = [] := by decide

example : sanitize_unicode modelLib [0x1F44D] charTokenizer 3 []
    true true none none = [0x1F44D] := by decide

example : tokenizer_call_trace modelLib [0x200B] false true none none = [] := by
  decide

/-- The `elif` chain of the classifier computes exactly the negation of the
spec-side four-check conjunction. -/
theorem should_replace_eq_not_passes (lib : UnicodeLib)
    (tokenizer : Str → List Str) (max_tokens : Int)
    (allow_emoji strict_mode : Bool) (disallowed : Finset Nat)
    (dangerous_categories : Finset String) (cluster : Str) :
    should_replace lib tokenizer max_tokens allow_emoji strict_mode
        disallowed dangerous_categories cluster =
      !(passes_all_checks lib tokenizer max_tokens allow_emoji strict_mode
        disallowed dangerous_categories cluster) := by
  unfold should_replace passes_all_checks
  have ht : decide (((tokenizer cluster).length : Int) ≤ max_tokens) =
      !decide (max_tokens < ((tokenizer cluster).length : Int)) := by
    rw [← decide_not]
    exact decide_eq_decide.mpr Int.not_lt.symm
  rw [ht]
  generalize cluster.any (fun ch => decide (ch ∈ disallowed)) = a
  generalize cluster.any lib.isEmojiChar = b
  generalize cluster.any
    (fun ch => decide (lib.category ch ∈ dangerous_categories)) = c
  generalize decide (max_tokens < ((tokenizer cluster).length : Int)) = t
  revert a b c t
  revert allow_emoji strict_mode
  decide

/-- C3: for every input and configuration, the output of `sanitize_unicode`
is the concatenation, in original segmentation order, of one representative
per grapheme cluster of the NFKC-normalized input: the cluster itself when
it passes all four checks, and the whole replacement string otherwise; no
cluster is reordered, dropped or merged. -/
theorem sanitize_unicode_clusterwise (lib : UnicodeLib) (text : Str)
    (tokenizer : Str → List Str) (max_tokens : Int) (replacement : Str)
    (allow_emoji strict_mode : Bool) (cd : Option (Finset Nat))
    (cc : Option (Finset String)) :
    sanitize_unicode lib text tokenizer max_tokens replacement allow_emoji
        strict_mode cd cc =
      ((lib.graphemes (lib.nfkc text)).map (fun cluster =>
        if passes_all_checks lib tokenizer max_tokens allow_emoji strict_mode
            (merged_disallowed cd) (merged_dangerous cc) cluster
        then cluster else replacement)).flatten := by
  simp only [sanitize_unicode]
  congr 1
  apply List.map_congr_left
  intro cluster _
  rw [should_replace_eq_not_passes]
  cases passes_all_checks lib tokenizer max_tokens allow_emoji strict_mode
    (merged_disallowed cd) (merged_dangerous cc) cluster <;> simp

/-- Whether the `elif` chain reaches the token-explosion check for a
cluster, i.e. none of the first three checks fires. -/
def reaches_token_check (lib : UnicodeLib) (allow_emoji strict_mode : Bool)
    (disallowed : Finset Nat) (dangerous_categories : Finset String)
    (cluster : Str) : Bool :=
  !(cluster.any (fun ch => decide (ch ∈ disallowed))) &&
  (allow_emoji || !(cluster.any lib.isEmojiChar)) &&
  (!strict_mode ||
    !(cluster.any (fun ch => decide (lib.category ch ∈ dangerous_categories))))

theorem cluster_tokenizer_args_eq (lib : UnicodeLib)
    (allow_emoji strict_mode : Bool) (disallowed : Finset Nat)
    (dangerous_categories : Finset String) (cluster : Str) :
    cluster_tokenizer_args lib allow_emoji strict_mode disallowed
        dangerous_categories cluster =
      if reaches_token_check lib allow_emoji strict_mode disallowed
          dangerous_categories cluster
      then [cluster] else [] := by
  unfold cluster_tokenizer_args reaches_token_check
  generalize cluster.any (fun ch => decide (ch ∈ disallowed)) = a
  generalize cluster.any lib.isEmojiChar = b
  generalize cluster.any
    (fun ch => decide (lib.category ch ∈ dangerous_categories)) = c
  cases a <;> cases b <;> cases c <;> cases allow_emoji <;>
    cases strict_mode <;> rfl

/-- C2 counterexample: an input whose single cluster is the zero width
space.  The disallowed-character check rejects it before check 4, so the
call performs zero tokenizer invocations while the normalized text has one
cluster: the invocation count does not equal the cluster count. -/
theorem tokenizer_once_per_cluster_cex :
    tokenizer_call_trace modelLib [0x200B] false true none none = [] ∧
    (modelLib.graphemes (modelLib.nfkc [0x200B])).length = 1 := by decide

/-- C2 (amended): the tokenizer is invoked exactly once, with exactly that
cluster's text as argument, for each grapheme cluster of the normalized
text that none of the first three checks rejects, and not at all for a
cluster one of them rejects; so the trace of invocations is the in-order
sublist of clusters reaching check 4. -/
theorem tokenizer_call_trace_eq_filter (lib : UnicodeLib) (text : Str)
    (allow_emoji strict_mode : Bool) (cd : Option (Finset Nat))
    (cc : Option (Finset String)) :
    tokenizer_call_trace lib text allow_emoji strict_mode cd cc =
      (lib.graphemes (lib.nfkc text)).filter
        (reaches_token_check lib allow_emoji strict_mode
          (merged_disallowed cd) (merged_dangerous cc)) := by
  simp only [tokenizer_call_trace]
  induction lib.graphemes (lib.nfkc text) with
  | nil => rfl
  | cons c l ih =>
    rw [List.map_cons, List.flatten_cons, ih, cluster_tokenizer_args_eq,
      List.filter_cons]
    cases reaches_token_check lib allow_emoji strict_mode
        (merged_disallowed cd) (merged_dangerous cc) c <;> simp

/-- C4: for a cluster the first three checks do not reject, the classifier
replaces it exactly when its isolated token count strictly exceeds
`max_tokens`: at exactly `max_tokens` tokens it is admitted, at
`max_tokens + 1` or more it is replaced. -/
theorem token_explosion_boundary (lib : UnicodeLib)
    (tokenizer : Str → List Str) (max_tokens : Int)
    (allow_emoji strict_mode : Bool) (disallowed : Finset Nat)
    (dangerous_categories : Finset String) (cluster : Str)
    (h1 : cluster.any (fun ch => decide (ch ∈ disallowed)) = false)
    (h2 : (!allow_emoji && cluster.any lib.isEmojiChar) = false)
    (h3 : (strict_mode && cluster.any
      (fun ch => decide (lib.category ch ∈ dangerous_categories))) = false) :
    should_replace lib tokenizer max_tokens allow_emoji strict_mode
        disallowed dangerous_categories cluster =
      decide (max_tokens < ((tokenizer cluster).length : Int)) := by
  unfold should_replace
  rw [h1, h2, h3]
  cases decide (max_tokens < ((tokenizer cluster).length : Int)) <;> simp

/-- C4 witness: the single letter a, one token under the per-scalar
tokenizer: admitted at `max_tokens = 1`, replaced at `max_tokens = 0`. -/
theorem token_explosion_boundary_witness :
    should_replace modelLib charTokenizer 1 false true DEFAULT_DISALLOWED
        DEFAULT_DANGEROUS_CATEGORIES [0x61] =
      decide ((1 : Int) < ((charTokenizer [0x61]).length : Int)) :=
  token_explosion_boundary modelLib charTokenizer 1 false true
    DEFAULT_DISALLOWED DEFAULT_DANGEROUS_CATEGORIES [0x61]
    (by decide) (by decide) (by decide)

/-- C5: on the empty string (which the normalizer keeps empty and the
segmenter splits into no clusters), `sanitize_unicode` returns the empty
string and the tokenizer is never invoked, for every configuration. -/
theorem sanitize_empty_input (lib : UnicodeLib) (tokenizer : Str → List Str)
    (max_tokens : Int) (replacement : Str) (allow_emoji strict_mode : Bool)
    (cd : Option (Finset Nat)) (cc : Option (Finset String))
    (hn : lib.nfkc [] = []) (hg : lib.graphemes [] = []) :
    sanitize_unicode lib [] tokenizer max_tokens replacement allow_emoji
        strict_mode cd cc = [] ∧
    tokenizer_call_trace lib [] allow_emoji strict_mode cd cc = [] := by
  constructor
  · simp only [sanitize_unicode]
    rw [hn, hg]
    rfl
  · simp only [tokenizer_call_trace]
    rw [hn, hg]
    rfl

/-- C5 witness: the empty string under the concrete model library. -/
theorem sanitize_empty_input_witness :
    sanitize_unicode modelLib [] charTokenizer 3 [] false true none none
        = [] ∧
    tokenizer_call_trace modelLib [] false true none none = [] :=
  sanitize_empty_input modelLib charTokenizer 3 [] false true none none
    rfl rfl

/-- C6: under the default configuration, every cluster of the normalized
input that contains U+200B is rejected by the disallowed-character check,
and U+200B never occurs in the output (so no occurrence of it in an input
containing it survives). -/
theorem default_config_rejects_zwsp (lib : UnicodeLib)
    (tokenizer : Str → List Str) (text : Str) (hmem : 0x200B ∈ text) :
    (∀ c ∈ lib.graphemes (lib.nfkc text), 0x200B ∈ c →
      c.any (fun ch => decide (ch ∈ merged_disallowed none)) = true) ∧
    0x200B ∉ sanitize_unicode lib text tokenizer 3 [] false true none none := by
  have hcheck : ∀ c : Str, 0x200B ∈ c →
      c.any (fun ch => decide (ch ∈ merged_disallowed none)) = true := by
    intro c hc
    rw [List.any_eq_true]
    exact ⟨0x200B, hc, by decide⟩
  refine ⟨fun c _ hc => hcheck c hc, ?_⟩
  intro h
  simp only [sanitize_unicode] at h
  rw [List.mem_flatten] at h
  obtain ⟨l, hl, hx⟩ := h
  rw [List.mem_map] at hl
  obtain ⟨c, hc, rfl⟩ := hl
  by_cases hsr : should_replace lib tokenizer 3 false true
      (merged_disallowed none) (merged_dangerous none) c = true
  · rw [if_pos hsr] at hx
    exact List.not_mem_nil _ hx
  · rw [if_neg hsr] at hx
    apply hsr
    unfold should_replace
    rw [hcheck c hx]
    rfl

/-- C6 witness: the string a ZWSP b under the concrete model library. -/
theorem default_config_rejects_zwsp_witness :
    (∀ c ∈ modelLib.graphemes (modelLib.nfkc [0x61, 0x200B, 0x62]),
      0x200B ∈ c →
      c.any (fun ch => decide (ch ∈ merged_disallowed none)) = true) ∧
    0x200B ∉ sanitize_unicode modelLib [0x61, 0x200B, 0x62] charTokenizer 3
        [] false true none none :=
  default_config_rejects_zwsp modelLib charTokenizer [0x61, 0x200B, 0x62]
    (by decide)

/-- C7: for an input that is a single emoji grapheme cluster (stable under
normalization), sanitizing with `allow_emoji = false` returns exactly the
replacement string, and sanitizing with `allow_emoji = true` returns the
original cluster unchanged when none of the other three checks rejects
it. -/
theorem emoji_gating (lib : UnicodeLib) (tokenizer : Str → List Str)
    (max_tokens : Int) (replacement : Str) (strict_mode : Bool)
    (cd : Option (Finset Nat)) (cc : Option (Finset String)) (text : Str)
    (hn : lib.nfkc text = text) (hg : lib.graphemes text = [text])
    (he : text.any lib.isEmojiChar = true) :
    sanitize_unicode lib text tokenizer max_tokens replacement false
        strict_mode cd cc = replacement ∧
    (text.any (fun ch => decide (ch ∈ merged_disallowed cd)) = false →
      (strict_mode && text.any
        (fun ch => decide (lib.category ch ∈ merged_dangerous cc))) = false →
      ((tokenizer text).length : Int) ≤ max_tokens →
      sanitize_unicode lib text tokenizer max_tokens replacement true
        strict_mode cd cc = text) := by
  constructor
  · have hsr : should_replace lib tokenizer max_tokens false strict_mode
        (merged_disallowed cd) (merged_dangerous cc) text = true := by
      unfold should_replace
      rw [he]
      cases text.any (fun ch => decide (ch ∈ merged_disallowed cd)) <;> simp
    simp only [sanitize_unicode]
    rw [hn, hg, List.map_cons, List.map_nil, hsr]
    simp
  · intro h1 h3 h4
    have h4d : decide (max_tokens < ((tokenizer text).length : Int))
        = false := by
      rw [decide_eq_false_iff_not]
      exact Int.not_lt.mpr h4
    have hsr : should_replace lib tokenizer max_tokens true strict_mode
        (merged_disallowed cd) (merged_dangerous cc) text = false := by
      unfold should_replace
      rw [h1, h3, h4d]
      rfl
    simp only [sanitize_unicode]
    rw [hn, hg, List.map_cons, List.map_nil, hsr]
    simp

/-- A second concrete instantiation of the Unicode primitives, agreeing
with the real library on single clusters built from THUMBS UP SIGN
(U+1F44D) and VARIATION SELECTOR-16 (U+FE0F): the variation selector
(Grapheme_Cluster_Break = Extend) attaches to the preceding scalar, so
U+1F44D U+FE0F is one cluster. -/
def vsLib : UnicodeLib where
  nfkc := id
  graphemes := fun s =>
    match s with
    | [] => []
    | [0x1F44D, 0xFE0F] => [[0x1F44D, 0xFE0F]]
    | c :: rest => [c] :: (rest.map (fun d => [d]))
  category := fun c =>
    if c = 0xFE0F then "Mn" else if c = 0x1F44D then "So" else "Ll"
  isEmojiChar := fun c => decide (c = 0x1F44D)

/-- C7 witness: the single THUMBS UP SIGN cluster under the model library
(both halves), and the emoji-presentation cluster U+1F44D U+FE0F under
`vsLib` — a single emoji cluster that the disallowed-character check also
rejects (VS-16 is a default disallowed scalar), for which the
`allow_emoji = false` half still yields the replacement. -/
theorem emoji_gating_witness :
    (sanitize_unicode modelLib [0x1F44D] charTokenizer 3 [0x5F] false true
        none none = [0x5F] ∧
      sanitize_unicode modelLib [0x1F44D] charTokenizer 3 [0x5F] true true
        none none = [0x1F44D]) ∧
    sanitize_unicode vsLib [0x1F44D, 0xFE0F] charTokenizer 3 [0x5F] false
        true none none = [0x5F] :=
  ⟨⟨(emoji_gating modelLib charTokenizer 3 [0x5F] true none none [0x1F44D]
      rfl rfl (by decide)).1,
    (emoji_gating modelLib charTokenizer 3 [0x5F] true none none [0x1F44D]
      rfl rfl (by decide)).2 (by decide) (by decide) (by decide)⟩,
    (emoji_gating vsLib charTokenizer 3 [0x5F] true none none
      [0x1F44D, 0xFE0F] rfl rfl (by decide)).1⟩

/-- C9: the sets the checks use are exactly the union of the module
defaults with the caller-supplied custom sets (the defaults are never
replaced), and a call started from the initial module state leaves the
process-wide default sets unchanged while computing the same output as the
pure entry point. -/
theorem config_merge_and_frame (lib : UnicodeLib) (text : Str)
    (tokenizer : Str → List Str) (max_tokens : Int) (replacement : Str)
    (allow_emoji strict_mode : Bool) (cd : Option (Finset Nat))
    (cc : Option (Finset String)) :
    merged_disallowed cd = DEFAULT_DISALLOWED ∪ cd.getD ∅ ∧
    merged_dangerous cc = DEFAULT_DANGEROUS_CATEGORIES ∪ cc.getD ∅ ∧
    sanitize_unicode_call initModule lib text tokenizer max_tokens
        replacement allow_emoji strict_mode cd cc =
      (sanitize_unicode lib text tokenizer max_tokens replacement allow_emoji
        strict_mode cd cc, initModule) := by
  refine ⟨?_, ?_, ?_⟩
  · cases cd with
    | none => simp [merged_disallowed]
    | some s =>
      by_cases h : s = ∅ <;> simp [merged_disallowed, h]
  · cases cc with
    | none => simp [merged_dangerous]
    | some s =>
      by_cases h : s = ∅ <;> simp [merged_dangerous, h]
  · rfl

/-- C10: since the pipeline first NFKC-normalizes its input and NFKC is
idempotent, sanitizing the normalized input gives the same output as
sanitizing the input itself; hence NFKC-equivalent inputs sanitize
identically. -/
theorem sanitize_nfkc_invariant (lib : UnicodeLib) (text : Str)
    (tokenizer : Str → List Str) (max_tokens : Int) (replacement : Str)
    (allow_emoji strict_mode : Bool) (cd : Option (Finset Nat))
    (cc : Option (Finset String))
    (hid : lib.nfkc (lib.nfkc text) = lib.nfkc text) :
    sanitize_unicode lib (lib.nfkc text) tokenizer max_tokens replacement
        allow_emoji strict_mode cd cc =
      sanitize_unicode lib text tokenizer max_tokens replacement allow_emoji
        strict_mode cd cc := by
  simp only [sanitize_unicode]
  rw [hid]

/-- C10 witness: a concrete input under the model library, whose
normalizer is the identity and hence idempotent. -/
theorem sanitize_nfkc_invariant_witness :
    sanitize_unicode modelLib (modelLib.nfkc [0x61, 0x200B]) charTokenizer 3
        [] false true none none =
      sanitize_unicode modelLib [0x61, 0x200B] charTokenizer 3 [] false true
        none none :=
  sanitize_nfkc_invariant modelLib [0x61, 0x200B] charTokenizer 3 [] false
    true none none rfl

/-- C1: evaluation of the code at an invalid configuration.  With
`max_tokens = 0` (below the documented minimum of 1) the call does not
fail fast: it runs the whole pipeline, invokes the tokenizer on the sole
cluster of the input a, and silently replaces that cluster (its one token
exceeds 0), returning the empty string. -/
theorem invalid_max_tokens_not_rejected :
    sanitize_unicode modelLib [0x61] charTokenizer 0 [] false true none none
        = [] ∧
    tokenizer_call_trace modelLib [0x61] false true none none = [[0x61]] := by
  decide

/-- NFKC on the code points the idempotence counterexample uses, matching
the real `unicodedata.normalize`: the sequence e (U+0065) followed by
COMBINING ACUTE ACCENT (U+0301) composes to U+00E9; everything else is
left in place. -/
def cexNfkc : Str → Str
  | [] => []
  | [a] => [a]
  | a :: b :: rest =>
    if a = 0x65 ∧ b = 0x301 then 0xE9 :: cexNfkc rest
    else a :: cexNfkc (b :: rest)

/-- Extended grapheme segmentation on the code points the idempotence
counterexample uses, matching UAX #29: COMBINING ACUTE ACCENT (U+0301)
attaches to the preceding scalar, except after ZERO WIDTH SPACE (U+200B),
whose Grapheme_Cluster_Break value Control forces a break after it; other
scalars are their own clusters. -/
def cexGraphemes : Str → List Str
  | [] => []
  | [a] => [[a]]
  | a :: b :: rest =>
    if b = 0x301 ∧ a ≠ 0x200B then [a, b] :: cexGraphemes rest
    else [a] :: cexGraphemes (b :: rest)

/-- Concrete instantiation of the Unicode primitives agreeing with the
real library on the strings of the idempotence counterexample (U+200B is
Cf, U+0301 is Mn, no character involved has the Emoji property). -/
def cexLib : UnicodeLib where
  nfkc := cexNfkc
  graphemes := cexGraphemes
  category := fun c =>
    if c = 0x200B then "Cf" else if c = 0x301 then "Mn" else "Ll"
  isEmojiChar := fun _ => false

/-- A tokenizer returning the whole string as one token. -/
def oneTokenizer : Str → List Str := fun s => [s]

/-- C8 counterexample: with replacement e (which passes all four checks
under the default configuration) and input ZWSP followed by COMBINING
ACUTE ACCENT, the first pass yields e followed by the combining accent,
but the second pass NFKC-composes that output into the single scalar
U+00E9, so sanitizing the output again changes it: `sanitize_unicode` is
not idempotent as claimed. -/
theorem sanitize_idempotence_cex :
    passes_all_checks cexLib oneTokenizer 3 false true
        (merged_disallowed none) (merged_dangerous none) [0x65] = true ∧
    sanitize_unicode cexLib [0x200B, 0x301] oneTokenizer 3 [0x65] false true
        none none = [0x65, 0x301] ∧
    sanitize_unicode cexLib [0x65, 0x301] oneTokenizer 3 [0x65] false true
        none none = [0xE9] ∧
    sanitize_unicode cexLib
        (sanitize_unicode cexLib [0x200B, 0x301] oneTokenizer 3 [0x65] false
          true none none) oneTokenizer 3 [0x65] false true none none ≠
      sanitize_unicode cexLib [0x200B, 0x301] oneTokenizer 3 [0x65] false
        true none none := by
  decide

theorem map_self_of_forall {α : Type} (l : List α) (f : α → α)
    (h : ∀ a ∈ l, f a = a) : l.map f = l := by
  induction l with
  | nil => rfl
  | cons a l ih =>
    rw [List.map_cons, h a (List.mem_cons_self a l),
      ih (fun b hb => h b (List.mem_cons_of_mem a hb))]

/-- C8 (amended): idempotence holds under the stability side conditions
the counterexample shows are necessary: if the segmenter reproduces its
input by concatenation, the first output is NFKC-stable, its segmentation
is exactly the admitted clusters with each replaced cluster contributing
the replacement's own clusters, and every cluster of the replacement
passes all four checks under the same configuration, then sanitizing the
output again returns it unchanged. -/
theorem sanitize_idempotent_of_stable (lib : UnicodeLib) (text : Str)
    (tokenizer : Str → List Str) (max_tokens : Int) (replacement : Str)
    (allow_emoji strict_mode : Bool) (cd : Option (Finset Nat))
    (cc : Option (Finset String))
    (hjoin : ∀ s, (lib.graphemes s).flatten = s)
    (hnf : lib.nfkc (sanitize_unicode lib text tokenizer max_tokens
        replacement allow_emoji strict_mode cd cc) =
      sanitize_unicode lib text tokenizer max_tokens replacement allow_emoji
        strict_mode cd cc)
    (hseg : lib.graphemes (sanitize_unicode lib text tokenizer max_tokens
        replacement allow_emoji strict_mode cd cc) =
      ((lib.graphemes (lib.nfkc text)).map (fun c =>
        if should_replace lib tokenizer max_tokens allow_emoji strict_mode
            (merged_disallowed cd) (merged_dangerous cc) c
        then lib.graphemes replacement else [c])).flatten)
    (hrep : ∀ c ∈ lib.graphemes replacement,
      should_replace lib tokenizer max_tokens allow_emoji strict_mode
        (merged_disallowed cd) (merged_dangerous cc) c = false) :
    sanitize_unicode lib
        (sanitize_unicode lib text tokenizer max_tokens replacement
          allow_emoji strict_mode cd cc)
        tokenizer max_tokens replacement allow_emoji strict_mode cd cc =
      sanitize_unicode lib text tokenizer max_tokens replacement allow_emoji
        strict_mode cd cc := by
  have hall : ∀ c ∈ lib.graphemes (sanitize_unicode lib text tokenizer
      max_tokens replacement allow_emoji strict_mode cd cc),
      should_replace lib tokenizer max_tokens allow_emoji strict_mode
        (merged_disallowed cd) (merged_dangerous cc) c = false := by
    intro c hc
    rw [hseg, List.mem_flatten] at hc
    obtain ⟨l, hl, hcl⟩ := hc
    rw [List.mem_map] at hl
    obtain ⟨c0, _, rfl⟩ := hl
    by_cases h : should_replace lib tokenizer max_tokens allow_emoji
        strict_mode (merged_disallowed cd) (merged_dangerous cc) c0 = true
    · rw [if_pos h] at hcl
      exact hrep c hcl
    · rw [if_neg h] at hcl
      rw [List.mem_singleton] at hcl
      subst hcl
      exact Bool.not_eq_true _ ▸ eq_false_of_ne_true h
  conv_lhs => rw [sanitize_unicode]
  rw [hnf]
  rw [map_self_of_forall _ _ (fun c hc => by rw [hall c hc]; rfl)]
  exact hjoin _

theorem modelLib_graphemes_flatten (s : Str) :
    (modelLib.graphemes s).flatten = s := by
  show (s.map (fun c => [c])).flatten = s
  induction s with
  | nil => rfl
  | cons a s ih => rw [List.map_cons, List.flatten_cons, ih]; rfl

/-- C8 witness: the single letter a with empty replacement under the model
library; all stability side conditions hold concretely. -/
theorem sanitize_idempotent_of_stable_witness :
    sanitize_unicode modelLib
        (sanitize_unicode modelLib [0x61] charTokenizer 3 [] false true none
          none) charTokenizer 3 [] false true none none =
      sanitize_unicode modelLib [0x61] charTokenizer 3 [] false true none
        none :=
  sanitize_idempotent_of_stable modelLib [0x61] charTokenizer 3 [] false
    true none none modelLib_graphemes_flatten (by decide) (by decide)
    (by intro c hc; exact absurd hc (List.not_mem_nil c))
